import Mathlib

/-!
Verification development for the dj-sellsy integration layer
(src/djsellsy/client.py, src/djsellsy/events.py).

The Python code is shallowly embedded: Python values flowing through the
client are modelled by the inductive type `Val` (floats are modelled as
rationals, which is exact for the decimal literals the claims exercise),
dictionaries by association lists with Python dict-update semantics,
exceptions by `Except PyErr`, and remote API calls by explicit `ApiCall`
traces.  Remote responses are supplied through small environment
structures, since the HTTP transport (the external sellsy_api library)
is outside the repository.
-/

/-- Error values standing for the Python exceptions that can escape the
embedded code paths. -/
inductive PyErr where
  | keyError : String → PyErr
  | valueError : String → PyErr
  | typeError : String → PyErr
  | sellsyError : String → PyErr
deriving Repr, DecidableEq

/-- Python values as manipulated by the client: strings, ints, floats
(modelled as rationals), booleans, lists, dicts (association lists in
insertion order) and None. -/
inductive Val where
  | str : String → Val
  | int : Int → Val
  | float : ℚ → Val
  | bool : Bool → Val
  | list : List Val → Val
  | dict : List (String × Val) → Val
  | null : Val

/-- Python truthiness (`if x:`): empty strings/lists/dicts, zero, False
and None are falsy, everything else is truthy. -/
def Val.truthy : Val → Bool
  | .str s => s ≠ ""
  | .int n => n ≠ 0
  | .float q => q ≠ 0
  | .bool b => b
  | .list xs => !xs.isEmpty
  | .dict kvs => !kvs.isEmpty
  | .null => false

/-- Membership test `k in d` on a Python dict. -/
def hasKey {α : Type} (d : List (String × α)) (k : String) : Bool :=
  d.any (fun p => decide (p.1 = k))

/-- Lookup `d[k]` / `d.get(k)` on a Python dict, as an `Option`. -/
def lookupVal {α : Type} : List (String × α) → String → Option α
  | [], _ => none
  | p :: rest, k => if p.1 = k then some p.2 else lookupVal rest k

/-- Python `d.get(k)`: `None` when the key is absent. -/
def getDefault (d : List (String × Val)) (k : String) : Val :=
  (lookupVal d k).getD Val.null

/-- Python `d[k]` with a `KeyError` when the key is absent. -/
def getKey (d : List (String × Val)) (k : String) : Except PyErr Val :=
  match lookupVal d k with
  | some v => .ok v
  | none => .error (.keyError k)

/-- Python `d[k] = v` / `d.update({k: v})`: overwrite the value in place
when the key exists, append the pair otherwise. -/
def dictSet {α : Type} (d : List (String × α)) (k : String) (v : α) :
    List (String × α) :=
  if hasKey d k then d.map (fun p => if p.1 = k then (k, v) else p)
  else d ++ [(k, v)]

/-- Truncation toward zero, the behaviour of Python `int()` on a float. -/
def ratTrunc (q : ℚ) : Int :=
  q.num.tdiv (q.den : Int)

/-- Accumulate decimal digits; `none` on the first non-digit. -/
def digitsToNatAux : Option Nat → List Char → Option Nat
  | acc, [] => acc
  | acc, c :: rest =>
    if c.isDigit then
      digitsToNatAux (some ((acc.getD 0) * 10 + (c.toNat - '0'.toNat))) rest
    else none

/-- Parse a non-empty all-digit character list as a natural number. -/
def digitsToNat (l : List Char) : Option Nat :=
  match l with
  | [] => none
  | _ => digitsToNatAux none l

/-- Python `int(str)` on the canonical sign-and-digits forms (the
whitespace/underscore tolerance of CPython is not exercised by any
claim): `none` models the `ValueError`. -/
def pyStrToInt (s : String) : Option Int :=
  match s.data with
  | '-' :: rest => (digitsToNat rest).map (fun n => -(n : Int))
  | l => (digitsToNat l).map (fun n => (n : Int))

/-- Python `int(x)`: identity on ints, truncation on floats, 0/1 on
booleans, digit parsing on strings (`ValueError` when the string does not
parse), `TypeError` on None/lists/dicts. -/
def pyIntOfVal : Val → Except PyErr Int
  | .int n => .ok n
  | .float q => .ok (ratTrunc q)
  | .bool b => .ok (if b then 1 else 0)
  | .str s =>
    match pyStrToInt s with
    | some n => .ok n
    | none => .error (.valueError "invalid literal for int")
  | _ => .error (.typeError "int argument must be a number or a string")

/-- Python cross-type numeric equality `x == n` between a value and an
int, as used by the tax-id normalisation check. -/
def valEqInt : Val → Int → Bool
  | .int m, n => m == n
  | .float q, n => decide (q = (n : ℚ))
  | .bool b, n => (if b then (1 : Int) else 0) == n
  | _, _ => false

/-- Python equality between a string and an arbitrary value, as used by
the reference-table scans (`entry['syscode'] == code`). -/
def strEqVal (s : String) : Val → Bool
  | .str t => s == t
  | _ => false

/-- Decimal digits of a proper fraction `r / d`, produced by long
division with fuel (Python float repr prints a finite decimal for the
dyadic/decimal values appearing in tax tables). -/
def fracDigits : Nat → Nat → Nat → String
  | 0, _, _ => ""
  | _ + 1, 0, _ => ""
  | fuel + 1, r, d =>
    let r10 := r * 10
    toString (r10 / d) ++ fracDigits fuel (r10 % d) d

/-- Python `str()` of a float, for the non-integral values reaching the
tax-table comparison (integral floats are normalised to ints first). -/
def qStr (q : ℚ) : String :=
  let sign := if q.num < 0 then "-" else ""
  let n := q.num.natAbs
  let d := q.den
  if n % d = 0 then sign ++ toString (n / d) ++ ".0"
  else sign ++ toString (n / d) ++ "." ++ fracDigits 17 (n % d) d

/-- Python `str()` on the scalar values that can reach the tax-table
comparison in `_get_tax_id` (lists/dicts/None cannot: `int()` raises on
them first). -/
def pyStrVal : Val → String
  | .str s => s
  | .int n => toString n
  | .float q => qStr q
  | .bool b => if b then "True" else "False"
  | .null => "None"
  | .list _ => "[...]"
  | .dict _ => "{...}"

/-- Entry of the currencies raw table (`AccountPrefs.getCurrencies`). -/
structure CurrencyEntry where
  id : Int
  name : String
deriving Repr, DecidableEq

/-- Entry of the payment-modes raw table (`Accountdatas.getPayMediums`). -/
structure PaymentModeEntry where
  id : Int
  syscode : String
  value : String
deriving Repr, DecidableEq

/-- Entry of the payment-dates raw table (`Accountdatas.getPayDates`). -/
structure PaymentDateEntry where
  id : Int
  syscode : String
deriving Repr, DecidableEq

/-- Entry of the taxes raw table (`Accountdatas.getTaxes`); the remote
system serialises the rate in the string field `value`. -/
structure TaxEntry where
  id : Int
  value : String
deriving Repr, DecidableEq

/-- Entry of the custom-fields raw table (`CustomFields.getList`). -/
structure PropEntry where
  id : Int
  code : String
deriving Repr, DecidableEq

/-- Entry of the custom-field-groups raw table
(`CustomFields.getGroupsList`). -/
structure GroupEntry where
  id : Int
  code : String
deriving Repr, DecidableEq

/-- SellsyClient._get_currency_id: scan the currencies table, skipping
the `defaultCurrency` entry, matching on `name`; the `[0]` indexing with
its `IndexError` handler becomes `head?`. -/
def getCurrencyId (tbl : List (String × CurrencyEntry)) (code : String) :
    Option Int :=
  (((tbl.filter (fun kv => kv.1 != "defaultCurrency" && kv.2.name == code)).map
    (fun kv => kv.2.id)).head?)

/-- SellsyClient._get_payment_mode_id: match on `syscode` or `value`. -/
def getPaymentModeIdV (tbl : List (String × PaymentModeEntry)) (v : Val) :
    Option Int :=
  (((tbl.filter (fun kv => strEqVal kv.2.syscode v || strEqVal kv.2.value v)).map
    (fun kv => kv.2.id)).head?)

/-- SellsyClient._get_payment_date_id: match on `syscode`. -/
def getPaymentDateIdV (tbl : List (String × PaymentDateEntry)) (v : Val) :
    Option Int :=
  (((tbl.filter (fun kv => strEqVal kv.2.syscode v)).map
    (fun kv => kv.2.id)).head?)

/-- SellsyClient._get_property_id: match on `code`. -/
def getPropertyId (tbl : List (String × PropEntry)) (code : String) :
    Option Int :=
  (((tbl.filter (fun kv => kv.2.code == code)).map (fun kv => kv.2.id)).head?)

/-- SellsyClient._get_property_group_id: match on `code`. -/
def getPropertyGroupId (tbl : List (String × GroupEntry)) (code : String) :
    Option Int :=
  (((tbl.filter (fun kv => kv.2.code == code)).map (fun kv => kv.2.id)).head?)

/-- SellsyClient._get_tax_id: normalise the tax value to an int when
`int(tax_value) == tax_value`, then scan the taxes table skipping keys
starting with `default`, comparing `tax['value']` with `str(tax_value)`.
The initial `int()` call is outside the `try`, so its exceptions
propagate (hence the `Except`). -/
def getTaxIdV (tbl : List (String × TaxEntry)) (v : Val) :
    Except PyErr (Option Int) := do
  let n ← pyIntOfVal v
  let v1 := if valEqInt v n then Val.int n else v
  pure ((((tbl.filter
    (fun kv => !(kv.1.startsWith "default") && kv.2.value == pyStrVal v1)).map
    (fun kv => kv.2.id)).head?))

/-- Modelled from the spec: the `constants` module imported by client.py
is not under src/; section 3 of the spec gives the client types
`corporation` and `person`.  The claims below depend only on the two
values being distinct. -/
def CLIENT_TYPE_CORPORATION : String := "corporation"

/-- Modelled from the spec: the person client type, see
`CLIENT_TYPE_CORPORATION`. -/
def CLIENT_TYPE_PERSON : String := "person"

/-- Modelled from the spec: opaque pagination marker sent with the
list-fetch calls; its exact value is not under src/ and no claim
inspects it. -/
def PAGINATION_ALL : Val := Val.str "all"

/-- One remote API invocation: the method name and the parameter payload
passed to `self._client.api`. -/
structure ApiCall where
  method : String
  params : Val

/-- SellsyClient._prepare_search_prop_value: try `int(prop_value)`;
on `ValueError` return the value unchanged, otherwise build the
`{start, stop}` range dict.  Exceptions other than `ValueError`
(e.g. `TypeError` on None) propagate. -/
def prepareSearchPropValue (v : Val) : Except PyErr Val :=
  match pyIntOfVal v with
  | .error (.valueError _) => .ok v
  | .error e => .error e
  | .ok n => .ok (.dict [("start", .int n), ("stop", .int n)])

/-- Environment of remote reference tables consumed by the
document-creation path. -/
structure DocEnv where
  paymentModes : List (String × PaymentModeEntry)
  paymentDates : List (String × PaymentDateEntry)
  taxes : List (String × TaxEntry)

/-- The synthesized closing row appended by `_prepare_document_rows`. -/
def sumRow : Val := Val.dict [("row_type", Val.str "sum")]

/-- Python `row_type != 'once'` on an arbitrary value. -/
def neOnce : Val → Bool
  | .str t => t != "once"
  | _ => true

/-- SellsyClient._prepare_document_rows, body of the loop for one input
row: pass rows of truthy non-"once" type through with their tax id
resolved, otherwise build the `once` row from
title/description/unit_price/quantity/tax_rate with optional discount
and comment. -/
def prepareOneRow (env : DocEnv) (row : Val) : Except PyErr Val := do
  match row with
  | .dict rd => do
    let rowType := getDefault rd "row_type"
    if rowType.truthy && neOnce rowType then do
      let taxRate ← getKey rd "tax_rate"
      let tid ← getTaxIdV env.taxes taxRate
      pure (.dict (dictSet rd "row_taxid" (optIdVal tid)))
    else do
      let title ← getKey rd "title"
      let notes ← getKey rd "description"
      let unitAmount ← getKey rd "unit_price"
      let qt ← getKey rd "quantity"
      let taxRate ← getKey rd "tax_rate"
      let tid ← getTaxIdV env.taxes taxRate
      let base := [("row_type", Val.str "once"), ("row_name", title),
        ("row_notes", notes), ("row_unitAmount", unitAmount),
        ("row_qt", qt), ("row_taxid", optIdVal tid)]
      let b1 ← if hasKey rd "discount" then do
          let du ← getKey rd "discount_unit"
          pure (dictSet (dictSet base "row_discount" (getDefault rd "discount"))
            "row_discountUnit" du)
        else pure base
      let b2 := if hasKey rd "comment" then
          dictSet b1 "row_comment" (getDefault rd "comment")
        else b1
      pure (.dict b2)
  | _ => .error (.typeError "row data is not a dict")
where
  /-- Wrap an optional resolved id the way Python carries it: `None`
  when the lookup found nothing. -/
  optIdVal : Option Int → Val
    | some n => .int n
    | none => .null

/-- Loop of `_prepare_document_rows` over the whole row collection. -/
def prepareRowsAux (env : DocEnv) : List Val → Except PyErr (List Val)
  | [] => .ok []
  | r :: rs => do
    let p ← prepareOneRow env r
    let ps ← prepareRowsAux env rs
    pure (p :: ps)

/-- SellsyClient._prepare_document_rows: prepare every input row, then
append the closing sum row unless suppressed. -/
def prepareDocumentRows (env : DocEnv) (rows : List Val)
    (appendSumRow : Bool := true) : Except PyErr (List Val) := do
  let ps ← prepareRowsAux env rows
  pure (if appendSumRow then ps ++ [sumRow] else ps)

/-- SellsyClient._create_document, parameter-building prefix: the exact
payload handed to the `Document.create` remote call (the call itself and
the custom-fields recording that follow do not alter it).  Mirrors the
source line by line: required `client_id`/`rows` with `ValueError`,
then the incremental `document_params` construction — note the source
tests `'title' in document_data` but reads `document_data['subject']` —
then the paydate extraction, row preparation and paydate id
resolution. -/
def createDocumentParams (env : DocEnv) (documentType : String)
    (dd : List (String × Val)) : Except PyErr Val := do
  let clientId ←
    match lookupVal dd "client_id" with
    | some v => Except.ok v
    | none => Except.error (.valueError "You must provide a client_id to create a document.")
  let rowsData ←
    match lookupVal dd "rows" with
    | some v => Except.ok v
    | none => Except.error (.valueError "You must provide rows to create a document.")
  let p0 := [("doctype", Val.str documentType), ("thirdid", clientId)]
  let p1 := if hasKey dd "parent_id" then
      dictSet p0 "parentId" (getDefault dd "parent_id") else p0
  let p2 := if hasKey dd "number" then
      dictSet p1 "ident" (getDefault dd "number") else p1
  let p3 ← if hasKey dd "date" then do
      let n ← pyIntOfVal (getDefault dd "date")
      pure (dictSet p2 "displayedDate" (Val.int n))
    else pure p2
  let p4 ← if hasKey dd "title" then do
      let subj ← getKey dd "subject"
      pure (dictSet p3 "subject" subj)
    else pure p3
  let p5 := if hasKey dd "notes" then
      dictSet p4 "notes" (getDefault dd "notes") else p4
  let p6 ← if hasKey dd "discount" then do
      let du ← getKey dd "discount_unit"
      pure (dictSet (dictSet p5 "globalDiscount" (getDefault dd "discount"))
        "globalDiscountUnit" du)
    else pure p5
  let p7 := if hasKey dd "tags" then
      dictSet p6 "tags" (getDefault dd "tags") else p6
  let p8 ← if hasKey dd "payment_modes" then do
      let pms ← match getDefault dd "payment_modes" with
        | .list xs => Except.ok xs
        | _ => Except.error (.typeError "payment_modes is not iterable")
      pure (dictSet p7 "payMediums" (Val.list (pms.map
        (fun pm => prepareOneRow.optIdVal (getPaymentModeIdV env.paymentModes pm)))))
    else pure p7
  let paydateOpt := if hasKey dd "paydate" then some (getDefault dd "paydate")
    else none
  let rows ← match rowsData with
    | .list xs => Except.ok xs
    | _ => Except.error (.typeError "rows is not iterable")
  let rowParams ← prepareDocumentRows env rows
  let params := [("document", Val.dict p8), ("row", Val.list rowParams)]
  match paydateOpt with
  | some pd => do
    let pdd ← match pd with
      | .dict kvs => Except.ok kvs
      | _ => Except.error (.typeError "paydate does not support item assignment")
    let code ← getKey pdd "id"
    let pdd1 := dictSet pdd "id"
      (prepareOneRow.optIdVal (getPaymentDateIdV env.paymentDates code))
    pure (Val.dict (dictSet params "paydate" (Val.dict pdd1)))
  | none => pure (Val.dict params)

/-- Remote call fetching the full custom-fields list, issued by
`_get_properties_raw_data` (always issued when `force_fetch=True`). -/
def getListCall : ApiCall :=
  { method := "CustomFields.getList"
    params := Val.dict [("pagination", PAGINATION_ALL)] }

/-- Remote call deleting one custom field, issued by `delete_property`. -/
def deleteCall (propId : Int) : ApiCall :=
  { method := "CustomFields.delete", params := Val.dict [("id", Val.int propId)] }

/-- SellsyClient._prepare_prop_values together with the remote fetches it
triggers: the comprehension keeps only truthy values (the filter is
evaluated first, so falsy entries trigger no forced fetch either), and
each kept entry resolves its code through `_get_property_id(...,
force_fetch=True)`, one `CustomFields.getList` call per kept entry.
Returns the built `values` array paired with the fetch calls, in
iteration order. -/
def preparePropValues (tbl : List (String × PropEntry)) :
    List (String × Val) → List Val × List ApiCall
  | [] => ([], [])
  | (name, v) :: rest =>
    let tail := preparePropValues tbl rest
    if v.truthy then
      (Val.dict [("cfid", prepareOneRow.optIdVal (getPropertyId tbl name)),
         ("value", v)] :: tail.1,
       getListCall :: tail.2)
    else tail

/-- The entry `_prepare_prop_values` builds for one kept mapping pair. -/
def propValueEntry (tbl : List (String × PropEntry)) (p : String × Val) : Val :=
  Val.dict [("cfid", prepareOneRow.optIdVal (getPropertyId tbl p.1)),
    ("value", p.2)]

/-- SellsyClient.record_property_values: the forced fetches of
`_prepare_prop_values` followed by the single
`CustomFields.recordValues` call carrying the built values array.
Returns the remote response paired with the full trace of calls. -/
def recordPropertyValuesT (tbl : List (String × PropEntry)) (response : Val)
    (linkedType : String) (linkedId : Val) (propValues : List (String × Val)) :
    Val × List ApiCall :=
  let built := preparePropValues tbl propValues
  (response,
   built.2 ++ [{ method := "CustomFields.recordValues"
                 params := Val.dict [("linkedtype", Val.str linkedType),
                   ("linkedid", linkedId), ("values", Val.list built.1)] }])

/-- SellsyClient.delete_property: a forced `CustomFields.getList` (via
`_get_property_id(code, force_fetch=True)`) then, when the resolved id is
truthy, the `CustomFields.delete` call. -/
def deleteProperty (tbl : List (String × PropEntry)) (code : String) :
    List ApiCall :=
  getListCall ::
    (match getPropertyId tbl code with
     | some propId => if propId ≠ 0 then [deleteCall propId] else []
     | none => [])

/-- SellsyClient.delete_all_properties: a forced `CustomFields.getList`,
then — only when the fetched table is truthy (non-empty) — one
`delete_property` per entry (each with its own forced fetch), with a
rate-limit sleep (not a remote call) between deletions.  `tbl` models the
constant remote table answered to every fetch. -/
def deleteAllProperties (tbl : List (String × PropEntry)) : List ApiCall :=
  getListCall ::
    (if tbl.isEmpty then []
     else tbl.flatMap (fun kv => deleteProperty tbl kv.2.code))

/-- Environment of remote behaviour consumed by the client-creation
path: the custom-fields table answered to forced fetches, the outcome of
the `Client.create` call (a response dict, or a raised SellsyError), and
the opaque response to `CustomFields.recordValues`. -/
structure ClientEnv where
  propsTable : List (String × PropEntry)
  createClientResult : Except PyErr (List (String × Val))
  recordValuesResult : Val

/-- SellsyClient._create_client: build `params` from
`client_data.get('third')` (the `type` key is injected into the third
dict itself), merge optional `contact`/`address`, issue `Client.create`,
read `client_id` from the response, and — only when the create call did
not raise — record custom-field values when `custom` is present, against
third-type `client` for corporations and `people` otherwise.  Returns
the outcome (new client id, or the propagated exception) paired with the
trace of remote calls actually issued. -/
def createClientT (env : ClientEnv) (clientType : String)
    (clientData : List (String × Val)) :
    Except PyErr Val × List ApiCall :=
  match getDefault clientData "third" with
  | .dict td =>
    let third := Val.dict (dictSet td "type" (Val.str clientType))
    let params0 := [("third", third)]
    let params1 := if hasKey clientData "contact" then
        dictSet params0 "contact" (getDefault clientData "contact") else params0
    let params2 := if hasKey clientData "address" then
        dictSet params1 "address" (getDefault clientData "address") else params1
    let createCall : ApiCall := { method := "Client.create"
                                  params := Val.dict params2 }
    match env.createClientResult with
    | .error e => (.error e, [createCall])
    | .ok resp =>
      let newId := getDefault resp "client_id"
      if hasKey clientData "custom" then
        match getDefault clientData "custom" with
        | .dict cv =>
          let thirdType := if clientType == CLIENT_TYPE_CORPORATION then "client"
            else "people"
          let recorded := recordPropertyValuesT env.propsTable
            env.recordValuesResult thirdType newId cv
          (.ok newId, createCall :: recorded.2)
        | _ => (.error (.typeError "custom values are not a dict"), [createCall])
      else (.ok newId, [createCall])
  | _ => (.error (.typeError "third does not support item assignment"), [])

/-- Inbound webhook request: the POST form data. -/
structure WebRequest where
  post : List (String × String)

/-- Python `request.POST.get('notif')`. -/
def WebRequest.postGet (r : WebRequest) (k : String) : Option String :=
  lookupVal r.post k

/-- The event value object built by the webhook receiver; its
constructor discards the parsed message (`SellsyEvent.__init__` is a
placeholder that stores nothing). -/
inductive SellsyEvent where
  | mk : SellsyEvent
deriving Repr, DecidableEq

/-- handle_webhook (src/djsellsy/events.py): extract the `notif` form
field, run it through the external `json.loads` (modelled as an explicit
argument, since the json library is outside the repository; it receives
`None` when the field is absent and raising is represented by
`Except.error`), and wrap any successful parse in a `SellsyEvent`; the
bare `except Exception` turns every parse failure into a logged warning
and a `None` result. -/
def handleWebhook (jsonLoads : Option String → Except PyErr Val)
    (request : WebRequest) : Option SellsyEvent :=
  let rawMessage := request.postGet "notif"
  match jsonLoads rawMessage with
  | .error _ => none
  | .ok _ => some SellsyEvent.mk

/-- Heap values, for the claims about in-place mutation: either an
immutable scalar or a reference to a mutable dict living in the heap. -/
inductive HVal where
  | prim : Val → HVal
  | ref : Nat → HVal

/-- A heap of mutable Python dicts, addressed by `Nat`. -/
structure Heap where
  cells : List (Nat × List (String × HVal))

/-- Find the first cell with a given address. -/
def findCell : List (Nat × List (String × HVal)) → Nat → Option (List (String × HVal))
  | [], _ => none
  | c :: rest, a => if c.1 = a then some c.2 else findCell rest a

/-- Dereference a dict address. -/
def Heap.get (h : Heap) (a : Nat) : Option (List (String × HVal)) :=
  findCell h.cells a

/-- In-place `d[k] = v` on the dict at address `a`. -/
def Heap.setKey (h : Heap) (a : Nat) (k : String) (v : HVal) : Heap :=
  { cells := h.cells.map (fun c => if c.1 = a then (c.1, dictSet c.2 k v) else c) }

/-- SellsyClient._create_client, payload construction (source lines
504-513): `params = {'third': client_data.get('third')}` stores the very
reference held by the caller's dict — no copy — and
`params['third']['type'] = client_type` then mutates the referenced dict
in place; optional `contact`/`address` are merged afterwards (re-read
after the mutation, which matters only under exotic aliasing).  The
remote calls that follow in the source (`Client.create`,
`record_property_values`) only read local dicts, so the returned pair
(parameters of `Client.create`, heap after the call) captures the
function's entire effect on caller-visible state. -/
def createClientH (h : Heap) (clientType : String) (dataAddr : Nat) :
    Except PyErr (List (String × HVal) × Heap) :=
  match h.get dataAddr with
  | none => .error (.typeError "dangling reference")
  | some dd =>
    let third := (lookupVal dd "third").getD (HVal.prim Val.null)
    let params0 := [("third", third)]
    match third with
    | .ref t =>
      match h.get t with
      | none => .error (.typeError "dangling reference")
      | some _ =>
        let h1 := h.setKey t "type" (HVal.prim (Val.str clientType))
        match h1.get dataAddr with
        | none => .error (.typeError "dangling reference")
        | some dd1 =>
          let params1 := if hasKey dd1 "contact" then
              dictSet params0 "contact" ((lookupVal dd1 "contact").getD
                (HVal.prim Val.null))
            else params0
          let params2 := if hasKey dd1 "address" then
              dictSet params1 "address" ((lookupVal dd1 "address").getD
                (HVal.prim Val.null))
            else params1
          .ok (params2, h1)
    | _ => .error (.typeError "item assignment on non-dict third")

/-- SellsyClient._update_client, payload construction (source lines
530-542): identical to `createClientH` except that the params dict also
carries `clientid` first; the same in-place `type` injection hits the
caller's `third` dict. -/
def updateClientH (h : Heap) (clientType : String) (clientId : Val)
    (dataAddr : Nat) : Except PyErr (List (String × HVal) × Heap) :=
  match h.get dataAddr with
  | none => .error (.typeError "dangling reference")
  | some dd =>
    let third := (lookupVal dd "third").getD (HVal.prim Val.null)
    let params0 := [("clientid", HVal.prim clientId), ("third", third)]
    match third with
    | .ref t =>
      match h.get t with
      | none => .error (.typeError "dangling reference")
      | some _ =>
        let h1 := h.setKey t "type" (HVal.prim (Val.str clientType))
        match h1.get dataAddr with
        | none => .error (.typeError "dangling reference")
        | some dd1 =>
          let params1 := if hasKey dd1 "contact" then
              dictSet params0 "contact" ((lookupVal dd1 "contact").getD
                (HVal.prim Val.null))
            else params0
          let params2 := if hasKey dd1 "address" then
              dictSet params1 "address" ((lookupVal dd1 "address").getD
                (HVal.prim Val.null))
            else params1
          .ok (params2, h1)
    | _ => .error (.typeError "item assignment on non-dict third")

/-- SellsyClient.create_company delegates to `_create_client` with the
corporation type. -/
def createCompanyH (h : Heap) (dataAddr : Nat) :
    Except PyErr (List (String × HVal) × Heap) :=
  createClientH h CLIENT_TYPE_CORPORATION dataAddr

/-- SellsyClient.create_contact delegates to `_create_client` with the
person type. -/
def createContactH (h : Heap) (dataAddr : Nat) :
    Except PyErr (List (String × HVal) × Heap) :=
  createClientH h CLIENT_TYPE_PERSON dataAddr

/-- SellsyClient.update_company delegates to `_update_client` with the
corporation type. -/
def updateCompanyH (h : Heap) (companyId : Val) (dataAddr : Nat) :
    Except PyErr (List (String × HVal) × Heap) :=
  updateClientH h CLIENT_TYPE_CORPORATION companyId dataAddr

/-! Helper lemmas shared by several claim proofs. -/

/-- The values/fetches built by `_prepare_prop_values` are exactly the
truthy-filtered input pairs, mapped in order. -/
theorem preparePropValues_eq (tbl : List (String × PropEntry))
    (pv : List (String × Val)) :
    preparePropValues tbl pv =
      ((pv.filter (fun p => p.2.truthy)).map (propValueEntry tbl),
       (pv.filter (fun p => p.2.truthy)).map (fun _ => getListCall)) := by
  induction pv with
  | nil => rfl
  | cons p rest ih =>
    obtain ⟨name, v⟩ := p
    by_cases hv : v.truthy <;>
      simp [preparePropValues, List.filter_cons, hv, ih, propValueEntry]

/-- Overwriting occurrences of one key leaves lookups of other keys
unchanged. -/
theorem lookupVal_map_set {α : Type} (k k2 : String) (v : α) (hne : k2 ≠ k) :
    ∀ d : List (String × α),
      lookupVal (d.map (fun p => if p.1 = k2 then (k2, v) else p)) k =
        lookupVal d k
  | [] => rfl
  | p :: rest => by
    by_cases hp : p.1 = k2
    · simp [lookupVal, hp, hne, Ne.symm hne, lookupVal_map_set k k2 v hne rest]
    · by_cases hpk : p.1 = k <;>
        simp [lookupVal, hp, hpk, Ne.symm hne,
          lookupVal_map_set k k2 v hne rest]

/-- Appending a pair with a different key leaves lookups unchanged. -/
theorem lookupVal_append_single {α : Type} (k k2 : String) (v : α)
    (hne : k2 ≠ k) :
    ∀ d : List (String × α), lookupVal (d ++ [(k2, v)]) k = lookupVal d k
  | [] => by simp [lookupVal, hne]
  | p :: rest => by
    by_cases hpk : p.1 = k <;>
      simp [lookupVal, hpk, lookupVal_append_single k k2 v hne rest]

/-- Setting one key of a dict leaves lookups of other keys unchanged. -/
theorem lookupVal_dictSet_ne {α : Type} (d : List (String × α))
    (k k2 : String) (v : α) (hne : k2 ≠ k) :
    lookupVal (dictSet d k2 v) k = lookupVal d k := by
  unfold dictSet
  by_cases hk : hasKey d k2 <;>
    simp [hk, lookupVal_map_set k k2 v hne d, lookupVal_append_single k k2 v hne d]

/-! Claim C1 — optional document fields. -/

/-- C1: the spec says each optional document field is sent iff its
source key is present in the input.  The code slips for the subject
field: it tests `'title' in document_data` but reads
`document_data['subject']` (client.py lines 918-921).  Consequently an
input carrying `title` (and the required `client_id`/`rows`) raises
`KeyError('subject')` instead of producing parameters, and an input
carrying `subject` alone silently omits the subject parameter. -/
theorem createDocument_title_subject_slip :
    createDocumentParams ⟨[], [], []⟩ "invoice"
      [("client_id", Val.int 7), ("rows", Val.list []),
       ("title", Val.str "Hello")] = .error (.keyError "subject") ∧
    createDocumentParams ⟨[], [], []⟩ "invoice"
      [("client_id", Val.int 7), ("rows", Val.list []),
       ("subject", Val.str "Hello")] =
      .ok (Val.dict [("document", Val.dict [("doctype", Val.str "invoice"),
        ("thirdid", Val.int 7)]), ("row", Val.list [sumRow])]) :=
  ⟨rfl, rfl⟩

/-! Claim C2 — delete_all_properties on an empty remote table. -/

/-- C2 counterexample: with no properties on the remote side,
`delete_all_properties` still issues its forced `CustomFields.getList`
fetch, so the trace of remote calls is not empty — the claimed
"zero remote calls" is false. -/
theorem deleteAllProperties_empty_not_zero_calls :
    deleteAllProperties [] = [getListCall] ∧
    deleteAllProperties [] ≠ ([] : List ApiCall) :=
  ⟨rfl, by simp [deleteAllProperties]⟩

/-- C2 amended: when the remote property table is empty,
`delete_all_properties` performs exactly one remote call — the forced
property-list fetch — and issues no deletion call. -/
theorem deleteAllProperties_empty_single_fetch
    (tbl : List (String × PropEntry)) (h : tbl = []) :
    deleteAllProperties tbl = [getListCall] ∧
    ∀ c ∈ deleteAllProperties tbl, c.method = "CustomFields.getList" := by
  subst h
  refine ⟨rfl, ?_⟩
  intro c hc
  simp [deleteAllProperties, List.isEmpty] at hc
  simp [hc, getListCall]

/-- Witness for the amended C2 statement at the empty table. -/
theorem deleteAllProperties_empty_single_fetch_witness :
    deleteAllProperties [] = [getListCall] ∧
    ∀ c ∈ deleteAllProperties [], c.method = "CustomFields.getList" :=
  deleteAllProperties_empty_single_fetch [] rfl

/-! Claim C5 — serialisation of numeric search values. -/

/-- C5 counterexample: the numeric search value 30.5 is serialised as
the range of its `int()` truncation, so the transmitted bounds are 30,
not the value itself, refuting "start equal to stop equal to the
value" for numeric values. -/
theorem searchValue_float_truncated :
    prepareSearchPropValue
      (Val.float (⟨61, 2, by decide, by decide⟩ : ℚ)) =
      .ok (Val.dict [("start", Val.int 30), ("stop", Val.int 30)]) ∧
    Val.int 30 ≠ Val.float (⟨61, 2, by decide, by decide⟩ : ℚ) :=
  ⟨rfl, fun hh => Val.noConfusion hh⟩

/-- C5 amended: integer search values serialise as
`{start: v, stop: v}`; any other value accepted by `int()` (floats —
truncated toward zero — and numeric strings) serialises as the range of
its int conversion; strings that fail int conversion pass through
unchanged; values with no int conversion at all (e.g. None) raise
`TypeError`, which `_prepare_search_prop_value` does not catch. -/
theorem searchValue_amended (n m : Int) (q : ℚ) (s t : String)
    (hs : pyStrToInt s = some m) (ht : pyStrToInt t = none) :
    prepareSearchPropValue (Val.int n) =
      .ok (Val.dict [("start", Val.int n), ("stop", Val.int n)]) ∧
    prepareSearchPropValue (Val.float q) =
      .ok (Val.dict [("start", Val.int (ratTrunc q)),
        ("stop", Val.int (ratTrunc q))]) ∧
    prepareSearchPropValue (Val.str s) =
      .ok (Val.dict [("start", Val.int m), ("stop", Val.int m)]) ∧
    prepareSearchPropValue (Val.str t) = .ok (Val.str t) ∧
    prepareSearchPropValue Val.null =
      .error (.typeError "int argument must be a number or a string") := by
  refine ⟨rfl, rfl, ?_, ?_, rfl⟩
  · simp [prepareSearchPropValue, pyIntOfVal, hs]
  · simp [prepareSearchPropValue, pyIntOfVal, ht]

/-- Witness for the amended C5 statement at 30, 30.5, "30" and "abc". -/
theorem searchValue_amended_witness :
    prepareSearchPropValue (Val.int 30) =
      .ok (Val.dict [("start", Val.int 30), ("stop", Val.int 30)]) ∧
    prepareSearchPropValue
      (Val.float (⟨61, 2, by decide, by decide⟩ : ℚ)) =
      .ok (Val.dict [("start", Val.int 30), ("stop", Val.int 30)]) ∧
    prepareSearchPropValue (Val.str "30") =
      .ok (Val.dict [("start", Val.int 30), ("stop", Val.int 30)]) ∧
    prepareSearchPropValue (Val.str "abc") = .ok (Val.str "abc") ∧
    prepareSearchPropValue Val.null =
      .error (.typeError "int argument must be a number or a string") :=
  by
  have h := searchValue_amended 30 30 (⟨61, 2, by decide, by decide⟩ : ℚ)
    "30" "abc" rfl rfl
  exact h

/-! Claim C8 — the webhook receiver never raises. -/

/-- C8: `handle_webhook` is total over every request and every behaviour
of the external JSON parser: a failed parse (including the `TypeError`
the parser raises when the `notif` field is absent) yields `None` after
a logged warning, and a successful parse yields the event value object;
no exception escapes. -/
theorem handleWebhook_no_exception
    (jsonLoads : Option String → Except PyErr Val) (request : WebRequest) :
    (∃ e, jsonLoads (request.postGet "notif") = .error e ∧
      handleWebhook jsonLoads request = none) ∨
    (∃ v, jsonLoads (request.postGet "notif") = .ok v ∧
      handleWebhook jsonLoads request = some SellsyEvent.mk) := by
  cases hj : jsonLoads (request.postGet "notif") with
  | error e => exact Or.inl ⟨e, rfl, by simp [handleWebhook, hj]⟩
  | ok v => exact Or.inr ⟨v, rfl, by simp [handleWebhook, hj]⟩

/-! Claim C10 — only truthy custom values are transmitted. -/

/-- C10: `record_property_values` sends, in the single
`CustomFields.recordValues` call, a values array holding exactly the
entries of the input mapping whose value is truthy, in mapping order —
each with its force-resolved cfid — and the falsy entries are dropped
silently (they trigger neither a fetch nor an error). -/
theorem recordPropertyValues_sends_truthy_entries
    (tbl : List (String × PropEntry)) (resp : Val) (lt : String) (li : Val)
    (pv : List (String × Val)) :
    recordPropertyValuesT tbl resp lt li pv =
      (resp,
       ((pv.filter (fun p => p.2.truthy)).map (fun _ => getListCall)) ++
       [{ method := "CustomFields.recordValues"
          params := Val.dict [("linkedtype", Val.str lt), ("linkedid", li),
            ("values", Val.list ((pv.filter (fun p => p.2.truthy)).map
              (propValueEntry tbl)))] }]) := by
  simp [recordPropertyValuesT, preparePropValues_eq]

/-! Claim C3 — missing reference-table lookups return None. -/

/-- C3: every reference-table lookup — currency code, payment-mode
code, payment-date code, tax value (integer or float), property code,
property-group code — returns `None` when nothing in the fetched table
matches, and raises no exception doing so: the `IndexError` of the `[0]`
indexing is the only exception the scans can produce and each lookup
catches it. -/
theorem referenceLookups_missing_not_found
    (ct : List (String × CurrencyEntry)) (cc : String)
    (hc : ∀ kv ∈ ct, kv.1 = "defaultCurrency" ∨ kv.2.name ≠ cc)
    (pmt : List (String × PaymentModeEntry)) (pmc : String)
    (hpm : ∀ kv ∈ pmt, kv.2.syscode ≠ pmc ∧ kv.2.value ≠ pmc)
    (pdt : List (String × PaymentDateEntry)) (pdc : String)
    (hpd : ∀ kv ∈ pdt, kv.2.syscode ≠ pdc)
    (tt : List (String × TaxEntry)) (tn : Int) (tq : ℚ)
    (htn : ∀ kv ∈ tt, kv.1.startsWith "default" = true ∨
      kv.2.value ≠ toString tn)
    (htq : ∀ kv ∈ tt, kv.1.startsWith "default" = true ∨
      (kv.2.value ≠ toString (ratTrunc tq) ∧ kv.2.value ≠ qStr tq))
    (pt : List (String × PropEntry)) (pc : String)
    (hp : ∀ kv ∈ pt, kv.2.code ≠ pc)
    (gt : List (String × GroupEntry)) (gc : String)
    (hg : ∀ kv ∈ gt, kv.2.code ≠ gc) :
    getCurrencyId ct cc = none ∧
    getPaymentModeIdV pmt (Val.str pmc) = none ∧
    getPaymentDateIdV pdt (Val.str pdc) = none ∧
    getTaxIdV tt (Val.int tn) = .ok none ∧
    getTaxIdV tt (Val.float tq) = .ok none ∧
    getPropertyId pt pc = none ∧
    getPropertyGroupId gt gc = none := by
  have h1 : ct.filter
      (fun kv => kv.1 != "defaultCurrency" && kv.2.name == cc) = [] := by
    rw [List.filter_eq_nil_iff]
    intro a ha
    rcases hc a ha with h | h <;> simp [h]
  have h2 : pmt.filter
      (fun kv => strEqVal kv.2.syscode (Val.str pmc) ||
        strEqVal kv.2.value (Val.str pmc)) = [] := by
    rw [List.filter_eq_nil_iff]
    intro a ha
    obtain ⟨hs, hv⟩ := hpm a ha
    simp [strEqVal, hs, hv]
  have h3 : pdt.filter
      (fun kv => strEqVal kv.2.syscode (Val.str pdc)) = [] := by
    rw [List.filter_eq_nil_iff]
    intro a ha
    simp [strEqVal, hpd a ha]
  have h6 : pt.filter (fun kv => kv.2.code == pc) = [] := by
    rw [List.filter_eq_nil_iff]
    intro a ha
    simp [hp a ha]
  have h7 : gt.filter (fun kv => kv.2.code == gc) = [] := by
    rw [List.filter_eq_nil_iff]
    intro a ha
    simp [hg a ha]
  refine ⟨?_, ?_, ?_, ?_, ?_, ?_, ?_⟩
  · simp [getCurrencyId, h1]
  · simp [getPaymentModeIdV, h2]
  · simp [getPaymentDateIdV, h3]
  · simp [getTaxIdV, pyIntOfVal, valEqInt]
    intro a b hab hsw
    rcases htn ⟨a, b⟩ hab with h | h
    · simp [hsw] at h
    · simpa [pyStrVal] using h
  · by_cases hq : tq = ((ratTrunc tq : Int) : ℚ)
    · have hdec : valEqInt (Val.float tq) (ratTrunc tq) = true := by
        simpa [valEqInt] using hq
      simp [getTaxIdV, pyIntOfVal, hdec]
      intro a b hab hsw
      rcases htq ⟨a, b⟩ hab with h | h
      · simp [hsw] at h
      · simpa [pyStrVal] using h.1
    · have hdec : valEqInt (Val.float tq) (ratTrunc tq) = false := by
        simpa [valEqInt] using hq
      simp [getTaxIdV, pyIntOfVal, hdec]
      intro a b hab hsw
      rcases htq ⟨a, b⟩ hab with h | h
      · simp [hsw] at h
      · simpa [pyStrVal] using h.2
  · simp [getPropertyId, h6]
  · simp [getPropertyGroupId, h7]

/-- Witness for C3 at small non-empty tables with unmatched codes. -/
theorem referenceLookups_missing_not_found_witness :
    getCurrencyId [("1", ⟨3, "EUR"⟩)] "USD" = none ∧
    getPaymentModeIdV [("1", ⟨4, "check", "Cheque"⟩)] (Val.str "cb") = none ∧
    getPaymentDateIdV [("1", ⟨5, "30days"⟩)] (Val.str "endmonth") = none ∧
    getTaxIdV [("1", ⟨6, "20"⟩)] (Val.int 10) = .ok none ∧
    getTaxIdV [("1", ⟨6, "20"⟩)]
      (Val.float (⟨61, 2, by decide, by decide⟩ : ℚ)) = .ok none ∧
    getPropertyId [("1", ⟨7, "vip"⟩)] "age" = none ∧
    getPropertyGroupId [("1", ⟨8, "grp"⟩)] "other" = none := by
  have h := referenceLookups_missing_not_found
    [("1", ⟨3, "EUR"⟩)] "USD" (by decide)
    [("1", ⟨4, "check", "Cheque"⟩)] "cb" (by decide)
    [("1", ⟨5, "30days"⟩)] "endmonth" (by decide)
    [("1", ⟨6, "20"⟩)] 10 (⟨61, 2, by decide, by decide⟩ : ℚ)
    (by decide) (by decide)
    [("1", ⟨7, "vip"⟩)] "age" (by decide)
    [("1", ⟨8, "grp"⟩)] "other" (by decide)
  exact h

/-! Claim C6 — whole-number tax values match like their integer form. -/

/-- C6: `_get_tax_id` first replaces the tax value by `int(tax_value)`
whenever the two compare equal, so a float that is mathematically a
whole number is resolved through exactly the same string comparison as
the corresponding integer, and the two lookups agree on every table. -/
theorem taxId_whole_float_matches_int (tbl : List (String × TaxEntry))
    (q : ℚ) (h : q.den = 1) :
    getTaxIdV tbl (Val.float q) = getTaxIdV tbl (Val.int q.num) := by
  have hq : ((q.num : ℚ)) = q := (Rat.den_eq_one_iff q).mp h
  have ht : ratTrunc q = q.num := by simp [ratTrunc, h]
  simp [getTaxIdV, pyIntOfVal, valEqInt, ht, hq]

/-- Witness for C6 at the float 20.0 against a table carrying "20". -/
theorem taxId_whole_float_matches_int_witness :
    (20 : ℚ).den = 1 ∧
    getTaxIdV [("1", ⟨7, "20"⟩)] (Val.float 20) =
      getTaxIdV [("1", ⟨7, "20"⟩)] (Val.int (20 : ℚ).num) :=
  ⟨rfl, taxId_whole_float_matches_int [("1", ⟨7, "20"⟩)] 20 rfl⟩

/-! Claim C7 — row preparation appends exactly one trailing sum row. -/

/-- Computation rule: binding a successful `Except` applies the
continuation. -/
theorem exceptBind_ok {ε α β : Type} (a : α) (f : α → Except ε β) :
    (Except.ok a >>= f) = f a := rfl

/-- Computation rule: binding a failed `Except` propagates the error. -/
theorem exceptBind_error {ε α β : Type} (e : ε) (f : α → Except ε β) :
    ((Except.error e : Except ε α) >>= f) = Except.error e := rfl

/-- Computation rule: mapping over a successful `Except`. -/
theorem exceptMap_ok {ε α β : Type} (f : α → β) (a : α) :
    (f <$> (Except.ok a : Except ε α)) = Except.ok (f a) := rfl

/-- Computation rule: mapping over a failed `Except`. -/
theorem exceptMap_error {ε α β : Type} (f : α → β) (e : ε) :
    (f <$> (Except.error e : Except ε α)) = Except.error e := rfl

/-- Helper: a successful run of the row-preparation loop maps the input
rows one-for-one, in order. -/
theorem prepareRowsAux_ok (env : DocEnv) :
    ∀ (rows : List Val) (ps : List Val),
      prepareRowsAux env rows = .ok ps →
      ps.length = rows.length ∧
      ∀ i, i < rows.length → ∃ r p, rows[i]? = some r ∧
        prepareOneRow env r = .ok p ∧ ps[i]? = some p
  | [], ps, h => by
    simp [prepareRowsAux] at h
    subst h
    exact ⟨rfl, fun i hi => by simp at hi⟩
  | r :: rs, ps, h => by
    cases hr : prepareOneRow env r with
    | error e => simp [prepareRowsAux, hr, exceptBind_error] at h
    | ok p =>
      cases ha : prepareRowsAux env rs with
      | error e =>
        simp [prepareRowsAux, hr, ha, exceptBind_ok, exceptBind_error,
          exceptMap_error] at h
      | ok tail =>
        simp [prepareRowsAux, hr, ha, exceptBind_ok, exceptMap_ok] at h
        subst h
        obtain ⟨hlen, hidx⟩ := prepareRowsAux_ok env rs tail ha
        refine ⟨by simp [hlen], ?_⟩
        intro i hi
        match i with
        | 0 => exact ⟨r, p, by simp, hr, by simp⟩
        | j + 1 =>
          have hj : j < rs.length := by simpa using hi
          obtain ⟨r0, p0, h1, h2, h3⟩ := hidx j hj
          exact ⟨r0, p0, by simpa using h1, h2, by simpa using h3⟩

/-- C7: whenever `_prepare_document_rows` succeeds with default
settings, its output is the input rows prepared one-for-one, in order,
followed by exactly one synthesized entry — the trailing
`{'row_type': 'sum'}` marker row. -/
theorem prepareDocumentRows_trailing_sum (env : DocEnv) (rows : List Val)
    (out : List Val) (h : prepareDocumentRows env rows true = .ok out) :
    out.length = rows.length + 1 ∧
    out.getLast? = some sumRow ∧
    ∀ i, i < rows.length → ∃ r p, rows[i]? = some r ∧
      prepareOneRow env r = .ok p ∧ out[i]? = some p := by
  cases ha : prepareRowsAux env rows with
  | error e => simp [prepareDocumentRows, ha, exceptBind_error] at h
  | ok ps =>
    simp [prepareDocumentRows, ha, exceptBind_ok] at h
    subst h
    obtain ⟨hlen, hidx⟩ := prepareRowsAux_ok env rows ps ha
    refine ⟨by simp [hlen], List.getLast?_concat ps, ?_⟩
    intro i hi
    obtain ⟨r, p, h1, h2, h3⟩ := hidx i hi
    refine ⟨r, p, h1, h2, ?_⟩
    rw [List.getElem?_append_left (by omega), h3]

/-- Witness for C7 at a one-row collection that prepares successfully. -/
theorem prepareDocumentRows_trailing_sum_witness :
    ([Val.dict [("row_type", Val.str "once"), ("row_name", Val.str "A"),
        ("row_notes", Val.str "B"), ("row_unitAmount", Val.int 10),
        ("row_qt", Val.int 2), ("row_taxid", Val.int 5)], sumRow].length =
      [Val.dict [("title", Val.str "A"), ("description", Val.str "B"),
        ("unit_price", Val.int 10), ("quantity", Val.int 2),
        ("tax_rate", Val.int 20)]].length + 1) ∧
    ([Val.dict [("row_type", Val.str "once"), ("row_name", Val.str "A"),
        ("row_notes", Val.str "B"), ("row_unitAmount", Val.int 10),
        ("row_qt", Val.int 2), ("row_taxid", Val.int 5)],
      sumRow].getLast? = some sumRow) ∧
    ∀ i, i < [Val.dict [("title", Val.str "A"), ("description", Val.str "B"),
        ("unit_price", Val.int 10), ("quantity", Val.int 2),
        ("tax_rate", Val.int 20)]].length →
      ∃ r p, [Val.dict [("title", Val.str "A"), ("description", Val.str "B"),
        ("unit_price", Val.int 10), ("quantity", Val.int 2),
        ("tax_rate", Val.int 20)]][i]? = some r ∧
        prepareOneRow ⟨[], [], [("1", ⟨5, "20"⟩)]⟩ r = .ok p ∧
        [Val.dict [("row_type", Val.str "once"), ("row_name", Val.str "A"),
          ("row_notes", Val.str "B"), ("row_unitAmount", Val.int 10),
          ("row_qt", Val.int 2), ("row_taxid", Val.int 5)],
         sumRow][i]? = some p :=
  prepareDocumentRows_trailing_sum ⟨[], [], [("1", ⟨5, "20"⟩)]⟩
    [Val.dict [("title", Val.str "A"), ("description", Val.str "B"),
      ("unit_price", Val.int 10), ("quantity", Val.int 2),
      ("tax_rate", Val.int 20)]]
    [Val.dict [("row_type", Val.str "once"), ("row_name", Val.str "A"),
      ("row_notes", Val.str "B"), ("row_unitAmount", Val.int 10),
      ("row_qt", Val.int 2), ("row_taxid", Val.int 5)], sumRow] rfl

/-! Claim C4 — remote calls issued when creating a client with custom
fields. -/

/-- C4 counterexample: creating a corporation with a third payload and
one custom field issues three remote calls, not two — the forced
`CustomFields.getList` refresh that resolves the custom code sits
between `Client.create` and `CustomFields.recordValues`. -/
theorem createClient_three_remote_calls :
    ((createClientT
        ⟨[("1", ⟨101, "vip"⟩)], .ok [("client_id", Val.int 42)], Val.null⟩
        CLIENT_TYPE_CORPORATION
        [("third", Val.dict [("name", Val.str "Acme")]),
         ("custom", Val.dict [("vip", Val.str "yes")])]).2).map
      (fun c => c.method) =
      ["Client.create", "CustomFields.getList",
       "CustomFields.recordValues"] ∧
    ((createClientT
        ⟨[("1", ⟨101, "vip"⟩)], .ok [("client_id", Val.int 42)], Val.null⟩
        CLIENT_TYPE_CORPORATION
        [("third", Val.dict [("name", Val.str "Acme")]),
         ("custom", Val.dict [("vip", Val.str "yes")])]).2).length ≠ 2 := by
  refine ⟨rfl, ?_⟩
  have hl : ((createClientT
      ⟨[("1", ⟨101, "vip"⟩)], .ok [("client_id", Val.int 42)], Val.null⟩
      CLIENT_TYPE_CORPORATION
      [("third", Val.dict [("name", Val.str "Acme")]),
       ("custom", Val.dict [("vip", Val.str "yes")])]).2).length = 3 := rfl
  rw [hl]
  decide

/-- C4 amended: with a `third` payload and a `custom` mapping,
`_create_client` issues the `Client.create` call first — its parameters
carry the third payload with the type injected and no custom values —
then one forced `CustomFields.getList` per truthy custom entry, then the
single `CustomFields.recordValues` call recording each resolved cfid and
value against the id returned by the create call, with linked type
`client` for a corporation and `people` for a person; when the create
call raises, the trace stops at that one call and nothing is
recorded. -/
theorem createClient_trace_amended (env : ClientEnv)
    (td cd : List (String × Val)) :
    (∀ resp, env.createClientResult = .ok resp →
      createClientT env CLIENT_TYPE_CORPORATION
          [("third", Val.dict td), ("custom", Val.dict cd)] =
        (.ok (getDefault resp "client_id"),
         { method := "Client.create"
           params := Val.dict [("third",
             Val.dict (dictSet td "type" (Val.str CLIENT_TYPE_CORPORATION)))] } ::
         ((cd.filter (fun p => p.2.truthy)).map (fun _ => getListCall)) ++
         [{ method := "CustomFields.recordValues"
            params := Val.dict [("linkedtype", Val.str "client"),
              ("linkedid", getDefault resp "client_id"),
              ("values", Val.list ((cd.filter (fun p => p.2.truthy)).map
                (propValueEntry env.propsTable)))] }]) ∧
      createClientT env CLIENT_TYPE_PERSON
          [("third", Val.dict td), ("custom", Val.dict cd)] =
        (.ok (getDefault resp "client_id"),
         { method := "Client.create"
           params := Val.dict [("third",
             Val.dict (dictSet td "type" (Val.str CLIENT_TYPE_PERSON)))] } ::
         ((cd.filter (fun p => p.2.truthy)).map (fun _ => getListCall)) ++
         [{ method := "CustomFields.recordValues"
            params := Val.dict [("linkedtype", Val.str "people"),
              ("linkedid", getDefault resp "client_id"),
              ("values", Val.list ((cd.filter (fun p => p.2.truthy)).map
                (propValueEntry env.propsTable)))] }])) ∧
    (∀ e, env.createClientResult = .error e →
      createClientT env CLIENT_TYPE_CORPORATION
          [("third", Val.dict td), ("custom", Val.dict cd)] =
        (.error e,
         [{ method := "Client.create"
            params := Val.dict [("third",
              Val.dict (dictSet td "type"
                (Val.str CLIENT_TYPE_CORPORATION)))] }])) := by
  refine ⟨fun resp hok => ⟨?_, ?_⟩, fun e herr => ?_⟩
  · simp [createClientT, getDefault, lookupVal, hasKey, hok,
      recordPropertyValuesT, preparePropValues_eq,
      CLIENT_TYPE_CORPORATION, CLIENT_TYPE_PERSON]
  · simp [createClientT, getDefault, lookupVal, hasKey, hok,
      recordPropertyValuesT, preparePropValues_eq,
      CLIENT_TYPE_CORPORATION, CLIENT_TYPE_PERSON]
  · simp [createClientT, getDefault, lookupVal, hasKey, herr,
      CLIENT_TYPE_CORPORATION]

/-- Witness for the amended C4 statement: both the successful and the
failing create call, at the scenario of the spec (Acme, vip=yes,
returned id 42). -/
theorem createClient_trace_amended_witness :
    createClientT
        ⟨[("1", ⟨101, "vip"⟩)], .ok [("client_id", Val.int 42)], Val.null⟩
        CLIENT_TYPE_CORPORATION
        [("third", Val.dict [("name", Val.str "Acme")]),
         ("custom", Val.dict [("vip", Val.str "yes")])] =
      (.ok (Val.int 42),
       [{ method := "Client.create"
          params := Val.dict [("third", Val.dict [("name", Val.str "Acme"),
            ("type", Val.str "corporation")])] },
        getListCall,
        { method := "CustomFields.recordValues"
          params := Val.dict [("linkedtype", Val.str "client"),
            ("linkedid", Val.int 42),
            ("values", Val.list [Val.dict [("cfid", Val.int 101),
              ("value", Val.str "yes")]])] }]) ∧
    createClientT
        ⟨[], .error (.sellsyError "boom"), Val.null⟩
        CLIENT_TYPE_CORPORATION
        [("third", Val.dict [("name", Val.str "Acme")]),
         ("custom", Val.dict [("vip", Val.str "yes")])] =
      (.error (.sellsyError "boom"),
       [{ method := "Client.create"
          params := Val.dict [("third", Val.dict [("name", Val.str "Acme"),
            ("type", Val.str "corporation")])] }]) := by
  have h1 := (createClient_trace_amended
    ⟨[("1", ⟨101, "vip"⟩)], .ok [("client_id", Val.int 42)], Val.null⟩
    [("name", Val.str "Acme")] [("vip", Val.str "yes")]).1
    [("client_id", Val.int 42)] rfl
  have h2 := (createClient_trace_amended
    ⟨[], .error (.sellsyError "boom"), Val.null⟩
    [("name", Val.str "Acme")] [("vip", Val.str "yes")]).2
    (.sellsyError "boom") rfl
  exact ⟨h1.1, h2⟩

/-! Claim C9 — in-place mutation of the caller's third dict. -/

/-- Effect of `Heap.setKey` on cell lookups: the addressed dict gains
the key, every other address is untouched. -/
theorem findCell_setKey (a b : Nat) (k : String) (v : HVal) :
    ∀ cs : List (Nat × List (String × HVal)),
      findCell (cs.map (fun c => if c.1 = a then (c.1, dictSet c.2 k v) else c)) b
        = (findCell cs b).map
            (fun d => if b = a then dictSet d k v else d)
  | [] => rfl
  | c :: rest => by
    by_cases h1 : c.1 = a
    · by_cases h2 : c.1 = b
      · have hba : b = a := by rw [← h2]; exact h1
        simp [findCell, h1, h2, hba]
      · have h2a : ¬a = b := by rw [← h1]; exact h2
        simp [findCell, h1, h2, h2a, findCell_setKey a b k v rest]
    · by_cases h2 : c.1 = b
      · have hba : ¬b = a := by rw [← h2]; exact h1
        simp [findCell, h1, h2, hba]
      · simp [findCell, h1, h2, findCell_setKey a b k v rest]

/-- Restatement of `findCell_setKey` through the `Heap` interface. -/
theorem Heap.get_setKey (h : Heap) (a : Nat) (k : String) (v : HVal)
    (b : Nat) :
    (h.setKey a k v).get b =
      (h.get b).map (fun d => if b = a then dictSet d k v else d) :=
  findCell_setKey a b k v h.cells

/-- Merging optional contact/address payloads into the params dict does
not disturb the `third` entry. -/
theorem lookup_third_merge (params dd1 : List (String × HVal)) (x : HVal)
    (hx : lookupVal params "third" = some x) :
    lookupVal
      (if hasKey dd1 "address" then
        dictSet (if hasKey dd1 "contact" then
            dictSet params "contact" ((lookupVal dd1 "contact").getD
              (HVal.prim Val.null)) else params)
          "address" ((lookupVal dd1 "address").getD (HVal.prim Val.null))
      else (if hasKey dd1 "contact" then
            dictSet params "contact" ((lookupVal dd1 "contact").getD
              (HVal.prim Val.null)) else params))
      "third" = some x := by
  have hc : lookupVal (if hasKey dd1 "contact" then
      dictSet params "contact" ((lookupVal dd1 "contact").getD
        (HVal.prim Val.null)) else params) "third" = some x := by
    cases hck : hasKey dd1 "contact" <;>
      simp [hx, lookupVal_dictSet_ne _ _ _ _ (by decide : "contact" ≠ "third")]
  cases hak : hasKey dd1 "address" <;>
    simp [hc, lookupVal_dictSet_ne _ _ _ _ (by decide : "address" ≠ "third")]

/-- C9: `_create_client` and `_update_client` build the request payload
around the very `third` dict held by the caller's data (the params entry
is the same heap reference, no copy), and the `type`-injection mutates
that dict in place: after the call — also through the wrappers
`create_company`, `create_contact` and `update_company` — the caller's
`data['third']` has gained a `type` key holding the client type, while
every other heap cell is untouched. -/
theorem createClient_mutates_callers_third (h : Heap) (clientType : String)
    (clientId : Val) (dataAddr t : Nat) (dd td : List (String × HVal))
    (h1 : h.get dataAddr = some dd)
    (h2 : lookupVal dd "third" = some (HVal.ref t))
    (h3 : h.get t = some td) :
    (∃ ps hAfter, createClientH h clientType dataAddr = .ok (ps, hAfter) ∧
      lookupVal ps "third" = some (HVal.ref t) ∧
      hAfter.get t =
        some (dictSet td "type" (HVal.prim (Val.str clientType))) ∧
      ∀ b, b ≠ t → hAfter.get b = h.get b) ∧
    (∃ ps hAfter,
      updateClientH h clientType clientId dataAddr = .ok (ps, hAfter) ∧
      lookupVal ps "third" = some (HVal.ref t) ∧
      hAfter.get t =
        some (dictSet td "type" (HVal.prim (Val.str clientType))) ∧
      ∀ b, b ≠ t → hAfter.get b = h.get b) ∧
    createCompanyH h dataAddr =
      createClientH h CLIENT_TYPE_CORPORATION dataAddr ∧
    createContactH h dataAddr = createClientH h CLIENT_TYPE_PERSON dataAddr ∧
    updateCompanyH h clientId dataAddr =
      updateClientH h CLIENT_TYPE_CORPORATION clientId dataAddr := by
  have hget1 : (h.setKey t "type" (HVal.prim (Val.str clientType))).get dataAddr
      = some (if dataAddr = t then
          dictSet dd "type" (HVal.prim (Val.str clientType)) else dd) := by
    rw [Heap.get_setKey, h1]
    rfl
  have hgett : (h.setKey t "type" (HVal.prim (Val.str clientType))).get t
      = some (dictSet td "type" (HVal.prim (Val.str clientType))) := by
    rw [Heap.get_setKey, h3]
    simp
  have hframe : ∀ b, b ≠ t →
      (h.setKey t "type" (HVal.prim (Val.str clientType))).get b = h.get b := by
    intro b hb
    rw [Heap.get_setKey]
    cases h.get b <;> simp [hb]
  refine ⟨?_, ?_, rfl, rfl, rfl⟩
  · obtain ⟨ps, heq, hps⟩ :
        ∃ ps, createClientH h clientType dataAddr =
            .ok (ps, h.setKey t "type" (HVal.prim (Val.str clientType))) ∧
          lookupVal ps "third" = some (HVal.ref t) := by
      simp only [createClientH, h1, h2, h3, hget1, Option.getD_some]
      exact ⟨_, rfl, lookup_third_merge [("third", HVal.ref t)] _ _ rfl⟩
    exact ⟨ps, _, heq, hps, hgett, hframe⟩
  · obtain ⟨ps, heq, hps⟩ :
        ∃ ps, updateClientH h clientType clientId dataAddr =
            .ok (ps, h.setKey t "type" (HVal.prim (Val.str clientType))) ∧
          lookupVal ps "third" = some (HVal.ref t) := by
      simp only [updateClientH, h1, h2, h3, hget1, Option.getD_some]
      exact ⟨_, rfl, lookup_third_merge
        [("clientid", HVal.prim clientId), ("third", HVal.ref t)] _ _
        (by simp [lookupVal])⟩
    exact ⟨ps, _, heq, hps, hgett, hframe⟩

/-- Witness for C9 at a two-cell heap: data dict at address 0 whose
`third` entry references the dict at address 1. -/
theorem createClient_mutates_callers_third_witness :
    (∃ ps hAfter,
      createClientH ⟨[(0, [("third", HVal.ref 1)]),
          (1, [("name", HVal.prim (Val.str "Acme"))])]⟩ "corporation" 0 =
        .ok (ps, hAfter) ∧
      lookupVal ps "third" = some (HVal.ref 1) ∧
      hAfter.get 1 = some (dictSet [("name", HVal.prim (Val.str "Acme"))]
        "type" (HVal.prim (Val.str "corporation"))) ∧
      ∀ b, b ≠ 1 → hAfter.get b =
        Heap.get ⟨[(0, [("third", HVal.ref 1)]),
          (1, [("name", HVal.prim (Val.str "Acme"))])]⟩ b) ∧
    (∃ ps hAfter,
      updateClientH ⟨[(0, [("third", HVal.ref 1)]),
          (1, [("name", HVal.prim (Val.str "Acme"))])]⟩ "corporation"
          (Val.int 9) 0 =
        .ok (ps, hAfter) ∧
      lookupVal ps "third" = some (HVal.ref 1) ∧
      hAfter.get 1 = some (dictSet [("name", HVal.prim (Val.str "Acme"))]
        "type" (HVal.prim (Val.str "corporation"))) ∧
      ∀ b, b ≠ 1 → hAfter.get b =
        Heap.get ⟨[(0, [("third", HVal.ref 1)]),
          (1, [("name", HVal.prim (Val.str "Acme"))])]⟩ b) ∧
    createCompanyH ⟨[(0, [("third", HVal.ref 1)]),
        (1, [("name", HVal.prim (Val.str "Acme"))])]⟩ 0 =
      createClientH ⟨[(0, [("third", HVal.ref 1)]),
        (1, [("name", HVal.prim (Val.str "Acme"))])]⟩
        CLIENT_TYPE_CORPORATION 0 ∧
    createContactH ⟨[(0, [("third", HVal.ref 1)]),
        (1, [("name", HVal.prim (Val.str "Acme"))])]⟩ 0 =
      createClientH ⟨[(0, [("third", HVal.ref 1)]),
        (1, [("name", HVal.prim (Val.str "Acme"))])]⟩ CLIENT_TYPE_PERSON 0 ∧
    updateCompanyH ⟨[(0, [("third", HVal.ref 1)]),
        (1, [("name", HVal.prim (Val.str "Acme"))])]⟩ (Val.int 9) 0 =
      updateClientH ⟨[(0, [("third", HVal.ref 1)]),
        (1, [("name", HVal.prim (Val.str "Acme"))])]⟩
        CLIENT_TYPE_CORPORATION (Val.int 9) 0 :=
  createClient_mutates_callers_third
    ⟨[(0, [("third", HVal.ref 1)]), (1, [("name", HVal.prim (Val.str "Acme"))])]⟩
    "corporation" (Val.int 9) 0 1
    [("third", HVal.ref 1)] [("name", HVal.prim (Val.str "Acme"))]
    rfl rfl rfl
